import Mathlib

/-!
Verification development for the Kava runtime (stack-based bytecode VM,
generational mark-sweep GC, bytecode-rewriting JIT).

The definitions below are a shallow embedding of the C++ sources:
  * `src/gc/gc.h`   — `MemoryBlock`, `GCHeader`, `Heap`/`GarbageCollector`
  * `src/vm/vm.h`   — `Value`, script-mode interpreter `executeInstruction`,
                      `executeLambda`, `executeScriptMode`
  * `src/vm/jit.h`  — `optimizeO1`, `optimizeO3` pattern fusion

Machine integers are modelled as `Int` with explicit two's-complement
wrapping (`toInt32`) where the source computes in `int32_t`.  Fallible or
undefined-behaviour paths (out-of-range indexing of `std::vector`,
non-terminating spin loops) are modelled with `Option`: a `none` result
means the source execution has no defined modelled continuation.
-/

namespace Kava

/-- Two's-complement wrap of an integer into the `int32_t` range,
mirroring how the source stores results of `int32_t` arithmetic. -/
def toInt32 (n : Int) : Int := (n + 2 ^ 31) % 2 ^ 32 - 2 ^ 31

/-- Two's-complement wrap into the `int64_t` range. -/
def toInt64 (n : Int) : Int := (n + 2 ^ 63) % 2 ^ 64 - 2 ^ 63

/-- Update the element at index `i` of a list, leaving the list unchanged
when the index is out of range (lists model the id-indexed object store). -/
def modN (f : α → α) : Nat → List α → List α
  | _, [] => []
  | 0, a :: l => f a :: l
  | n + 1, a :: l => a :: modN f n l

theorem modN_get? (f : α → α) (i j : Nat) (l : List α) :
    (modN f i l)[j]? = if j = i then l[j]?.map f else l[j]? := by
  induction l generalizing i j with
  | nil => simp [modN]
  | cons a l ih =>
    cases i with
    | zero =>
      cases j with
      | zero => simp [modN]
      | succ j => simp [modN]
    | succ i =>
      cases j with
      | zero => simp [modN]
      | succ j => simpa [modN, Nat.succ_inj] using ih i j

theorem modN_length (f : α → α) (i : Nat) (l : List α) :
    (modN f i l).length = l.length := by
  induction l generalizing i with
  | nil => simp [modN]
  | cons a l ih =>
    cases i with
    | zero => simp [modN]
    | succ i => simp [modN, ih]

/-! ## Memory blocks (`src/gc/gc.h`, `struct MemoryBlock`)

Pointers are modelled as natural-number addresses.  The C++ field `end`
is a Lean keyword, so it is called `stop` here. -/

structure MemoryBlock where
  start : Nat
  stop : Nat
  current : Nat
deriving Repr, DecidableEq

def MemoryBlock.capacity (b : MemoryBlock) : Nat := b.stop - b.start

def MemoryBlock.used (b : MemoryBlock) : Nat := b.current - b.start

def MemoryBlock.reset (b : MemoryBlock) : MemoryBlock := { b with current := b.start }

def MemoryBlock.canAllocate (b : MemoryBlock) (size : Nat) : Bool :=
  decide (b.current + size ≤ b.stop)

/-- `MemoryBlock::allocate`: on success returns the old `current` pointer
and advances `current` by `size`; otherwise returns null (`none`) and
leaves the block unchanged. -/
def MemoryBlock.allocate (b : MemoryBlock) (size : Nat) : Option Nat × MemoryBlock :=
  if b.canAllocate size then (some b.current, { b with current := b.current + size })
  else (none, b)

/-! ## GC object headers (`struct GCHeader`)

Only the header state the collector reads and writes is modelled: the
`MARKED` and `OLD_GEN` flag bits, the `age` counter and the total `size`.
The remaining flag bits and the `classId`/`type` fields are never
consulted by the collection algorithms for the object shapes the claims
exercise (primitive arrays and strings carry no reference fields, and
`scanObject` is a stub for `INSTANCE`), so `mark` does not recurse. -/

structure GCHeader where
  marked : Bool
  oldGen : Bool
  age : Nat
  size : Nat
deriving Repr, DecidableEq

def GCHeader.mark (h : GCHeader) : GCHeader := { h with marked := true }

def GCHeader.unmark (h : GCHeader) : GCHeader := { h with marked := false }

/-- `GarbageCollector::promoteToOldGen`: sets the OLD_GEN flag (logical
promotion only; the source does not copy the object). -/
def GCHeader.promoteToOldGen (h : GCHeader) : GCHeader := { h with oldGen := true }

/-! ## Collector state (`class Heap` + `class GarbageCollector`)

Objects are identified by their allocation index into `objs` (the header
store).  `allObjects` is the live-object index (`Heap::allObjects`),
`roots` holds the current contents of each registered root slot
(`GCObject**` in the source: `some i` = slot points at object `i`,
`none` = slot was cleared to null). Wall-clock timing statistics are not
modelled. -/

structure GCStats where
  totalCollections : Nat
  minorCollections : Nat
  majorCollections : Nat
  totalBytesCollected : Nat
  totalObjectsCollected : Nat
deriving Repr, DecidableEq

def GCStats.zero : GCStats := ⟨0, 0, 0, 0, 0⟩

structure GCState where
  objs : List GCHeader
  allObjects : List Nat
  roots : List (Option Nat)
  rememberedSet : List Nat
  eden : MemoryBlock
  oldGenBlock : MemoryBlock
  tenureThreshold : Nat
  enableGenerational : Bool
  stats : GCStats
deriving Repr, DecidableEq

/-- Header lookup by object id (dangling ids yield `none`). -/
def GCState.header (s : GCState) (i : Nat) : Option GCHeader := s.objs[i]?

def isMarkedIn (objs : List GCHeader) (i : Nat) : Bool :=
  (objs[i]?.map GCHeader.marked).getD false

def isOldGenIn (objs : List GCHeader) (i : Nat) : Bool :=
  (objs[i]?.map GCHeader.oldGen).getD false

/-- `GarbageCollector::markPhase`: unmark every object in the live index,
then mark every object a registered root points at.  (`scanObject` does
not propagate for the object kinds modelled here, see `GCHeader`.) -/
def markPhase (s : GCState) : GCState :=
  let objs1 := s.allObjects.foldl (fun o i => modN GCHeader.unmark i o) s.objs
  let objs2 := s.roots.foldl (fun o r =>
    match r with
    | some i => modN GCHeader.mark i o
    | none => o) objs1
  { s with objs := objs2 }

/-- `GarbageCollector::sweepPhase`: drop every unmarked object from the
live-object index, accumulating freed-object and freed-byte counters. -/
def sweepPhase (s : GCState) : GCState :=
  let dead := s.allObjects.filter (fun i => !(isMarkedIn s.objs i))
  let live := s.allObjects.filter (fun i => isMarkedIn s.objs i)
  { s with
    allObjects := live
    stats := { s.stats with
      totalObjectsCollected := s.stats.totalObjectsCollected + dead.length
      totalBytesCollected :=
        s.stats.totalBytesCollected + (dead.map (fun i => (s.objs[i]?.map GCHeader.size).getD 0)).sum } }

/-- `GarbageCollector::minorMark`: mark from roots whose target is not
OLD_GEN, then from the remembered set. -/
def minorMark (s : GCState) : GCState :=
  let objs1 := s.roots.foldl (fun o r =>
    match r with
    | some i => if isOldGenIn o i then o else modN GCHeader.mark i o
    | none => o) s.objs
  let objs2 := s.rememberedSet.foldl (fun o i =>
    if isOldGenIn o i then o else modN GCHeader.mark i o) objs1
  { s with objs := objs2 }

/-- `GarbageCollector::minorSweep`: age every marked young object,
promoting it once `age` reaches `tenureThreshold`; then reset Eden and
clear the remembered set.  Note that it removes nothing from
`allObjects` and frees no accounted bytes/objects. -/
def minorSweep (s : GCState) : GCState :=
  let objs1 := s.allObjects.foldl (fun o i =>
    modN (fun h =>
      if h.marked && !h.oldGen then
        let h1 := { h with age := h.age + 1 }
        if s.tenureThreshold ≤ h1.age then h1.promoteToOldGen else h1
      else h) i o) s.objs
  { s with objs := objs1, eden := s.eden.reset, rememberedSet := [] }

/-- `GarbageCollector::collectYoung` (stat bookkeeping; timing omitted). -/
def collectYoung (s : GCState) : GCState :=
  let s1 := minorSweep (minorMark s)
  { s1 with stats := { s1.stats with
      minorCollections := s1.stats.minorCollections + 1
      totalCollections := s1.stats.totalCollections + 1 } }

/-- `GarbageCollector::collectFull`. -/
def collectFull (s : GCState) : GCState :=
  let s1 := sweepPhase (markPhase s)
  { s1 with stats := { s1.stats with
      majorCollections := s1.stats.majorCollections + 1
      totalCollections := s1.stats.totalCollections + 1 } }

/-- `GarbageCollector::collect`: in generational mode a minor collection,
followed by a full collection when OldGen is more than 75 % used
(`used() > capacity() * 0.75`, modelled as the exact rational
comparison `4 * used > 3 * capacity`); otherwise a full collection only. -/
def collect (s : GCState) : GCState :=
  if s.enableGenerational then
    let s1 := collectYoung s
    if 3 * s1.oldGenBlock.capacity < 4 * s1.oldGenBlock.used then collectFull s1 else s1
  else collectFull s

end Kava

namespace Kava

/-! ### Basic facts about the mark/unmark folds -/

theorem GCHeader.unmark_unmark (h : GCHeader) : h.unmark.unmark = h.unmark := rfl

theorem GCHeader.mark_mark (h : GCHeader) : h.mark.mark = h.mark := rfl

theorem map_unmark_twice (x : Option GCHeader) :
    (x.map GCHeader.unmark).map GCHeader.unmark = x.map GCHeader.unmark := by
  cases x <;> rfl

theorem map_mark_twice (x : Option GCHeader) :
    (x.map GCHeader.mark).map GCHeader.mark = x.map GCHeader.mark := by
  cases x <;> rfl

theorem foldl_unmark_get? (ids : List Nat) (objs : List GCHeader) (j : Nat) :
    (ids.foldl (fun o i => modN GCHeader.unmark i o) objs)[j]? =
      if j ∈ ids then objs[j]?.map GCHeader.unmark else objs[j]? := by
  induction ids generalizing objs with
  | nil => simp
  | cons i ids ih =>
    rw [List.foldl_cons, ih]
    by_cases hj : j ∈ ids
    · by_cases hij : j = i
      · subst hij
        rw [if_pos hj, if_pos (by simp [hj]), modN_get?, if_pos rfl, map_unmark_twice]
      · rw [if_pos hj, if_pos (by simp [hj]), modN_get?, if_neg hij]
    · by_cases hij : j = i
      · subst hij
        rw [if_neg hj, if_pos (by simp), modN_get?, if_pos rfl]
      · rw [if_neg hj, if_neg (by simp [hj, hij]), modN_get?, if_neg hij]

theorem foldl_markRoots_get? (rs : List (Option Nat)) (objs : List GCHeader) (j : Nat) :
    (rs.foldl (fun o r =>
      match r with
      | some i => modN GCHeader.mark i o
      | none => o) objs)[j]? =
      if some j ∈ rs then objs[j]?.map GCHeader.mark else objs[j]? := by
  induction rs generalizing objs with
  | nil => simp
  | cons r rs ih =>
    rw [List.foldl_cons, ih]
    cases r with
    | none => simp
    | some i =>
      by_cases hj : some j ∈ rs
      · by_cases hij : j = i
        · subst hij
          rw [if_pos hj, if_pos (by simp [hj]), modN_get?, if_pos rfl, map_mark_twice]
        · rw [if_pos hj, if_pos (by simp [hj]), modN_get?, if_neg hij]
      · by_cases hij : j = i
        · subst hij
          rw [if_neg hj, if_pos (by simp), modN_get?, if_pos rfl]
        · rw [if_neg hj, if_neg (by simp [hj, hij]), modN_get?, if_neg hij]

theorem markPhase_marked (s : GCState) (A : Nat) (hA : A ∈ s.allObjects)
    (hlt : A < s.objs.length) :
    isMarkedIn (markPhase s).objs A = decide (some A ∈ s.roots) := by
  obtain ⟨h, hh⟩ : ∃ h, s.objs[A]? = some h := ⟨_, List.getElem?_eq_getElem hlt⟩
  unfold markPhase isMarkedIn
  rw [foldl_markRoots_get?, foldl_unmark_get?, if_pos hA]
  by_cases hr : some A ∈ s.roots <;>
    simp [hr, hh, GCHeader.mark, GCHeader.unmark]

theorem markPhase_allObjects (s : GCState) : (markPhase s).allObjects = s.allObjects := rfl

theorem markPhase_stats (s : GCState) : (markPhase s).stats = s.stats := rfl

theorem sweepPhase_mem (s : GCState) (A : Nat) :
    A ∈ (sweepPhase s).allObjects ↔ A ∈ s.allObjects ∧ isMarkedIn s.objs A = true := by
  simp [sweepPhase, List.mem_filter]

theorem sweepPhase_collected_ge (s : GCState) (A : Nat)
    (hA : A ∈ s.allObjects) (hm : isMarkedIn s.objs A = false) :
    s.stats.totalObjectsCollected + 1 ≤ (sweepPhase s).stats.totalObjectsCollected := by
  have hmem : A ∈ s.allObjects.filter (fun i => !(isMarkedIn s.objs i)) := by
    simp [List.mem_filter, hA, hm]
  have hlen : 0 < (s.allObjects.filter (fun i => !(isMarkedIn s.objs i))).length :=
    List.length_pos_of_mem hmem
  simp only [sweepPhase]
  omega

end Kava

namespace Kava

/-! ### Field-preservation facts for the collection entry points -/

theorem collectYoung_oldGenBlock (s : GCState) :
    (collectYoung s).oldGenBlock = s.oldGenBlock := rfl

theorem collectYoung_allObjects (s : GCState) :
    (collectYoung s).allObjects = s.allObjects := rfl

theorem collectYoung_stats (s : GCState) :
    (collectYoung s).stats = { s.stats with
      minorCollections := s.stats.minorCollections + 1
      totalCollections := s.stats.totalCollections + 1 } := rfl

theorem collectFull_minorCollections (s : GCState) :
    (collectFull s).stats.minorCollections = s.stats.minorCollections := rfl

theorem collectFull_majorCollections (s : GCState) :
    (collectFull s).stats.majorCollections = s.stats.majorCollections + 1 := rfl

/-- Concrete non-generational collector state used to refute C3. -/
def c3NonGen : GCState :=
  { objs := [], allObjects := [], roots := [], rememberedSet := [],
    eden := ⟨0, 1024, 0⟩, oldGenBlock := ⟨1024, 2048, 1024⟩, tenureThreshold := 15,
    enableGenerational := false, stats := GCStats.zero }

/-- C3 counterexample: with generational mode disabled, `collect()` performs
no minor collection at all (minorCollections stays 0), yet performs a full
collection (majorCollections becomes 1) although generational mode is off
and OldGen utilization is 0 % — refuting both "every call performs a minor
collection" and "a full collection is performed iff generational mode is
enabled and OldGen utilization exceeds 75 %". -/
theorem c3_counterexample :
    (collect c3NonGen).stats.minorCollections = 0 ∧
    (collect c3NonGen).stats.majorCollections = 1 ∧
    c3NonGen.enableGenerational = false ∧
    4 * c3NonGen.oldGenBlock.used ≤ 3 * c3NonGen.oldGenBlock.capacity := by decide

/-- C3 (amended): when generational mode is enabled, `collect()` performs a
minor collection and additionally performs a full collection iff OldGen
utilization exceeds 75 %; when generational mode is disabled, `collect()`
performs exactly one full collection and no minor collection. -/
theorem c3_collect_policy (s : GCState) :
    (s.enableGenerational = true →
      (collect s).stats.minorCollections = s.stats.minorCollections + 1 ∧
      ((collect s).stats.majorCollections = s.stats.majorCollections + 1 ↔
        3 * s.oldGenBlock.capacity < 4 * s.oldGenBlock.used) ∧
      (¬ 3 * s.oldGenBlock.capacity < 4 * s.oldGenBlock.used →
        (collect s).stats.majorCollections = s.stats.majorCollections)) ∧
    (s.enableGenerational = false →
      (collect s).stats.minorCollections = s.stats.minorCollections ∧
      (collect s).stats.majorCollections = s.stats.majorCollections + 1) := by
  constructor
  · intro hgen
    by_cases hc : 3 * s.oldGenBlock.capacity < 4 * s.oldGenBlock.used
    · have hcol : collect s = collectFull (collectYoung s) := by
        simp [collect, hgen, collectYoung_oldGenBlock, hc]
      rw [hcol]
      refine ⟨?_, ?_, ?_⟩
      · rw [collectFull_minorCollections, collectYoung_stats]
      · rw [collectFull_majorCollections, collectYoung_stats]
        simpa using hc
      · intro h; exact absurd hc h
    · have hcol : collect s = collectYoung s := by
        simp [collect, hgen, collectYoung_oldGenBlock, hc]
      rw [hcol, collectYoung_stats]
      refine ⟨rfl, ?_, fun _ => rfl⟩
      simpa using hc
  · intro hgen
    have hcol : collect s = collectFull s := by simp [collect, hgen]
    rw [hcol, collectFull_minorCollections, collectFull_majorCollections]
    exact ⟨rfl, rfl⟩

/-- Concrete generational collector state (OldGen over 75 % full). -/
def c3GenHot : GCState :=
  { c3NonGen with enableGenerational := true, oldGenBlock := ⟨0, 100, 80⟩ }

/-- Witness for `c3_collect_policy` at concrete states. -/
theorem c3_collect_policy_witness :
    (collect c3GenHot).stats.minorCollections = 1 ∧
    (collect c3GenHot).stats.majorCollections = 1 ∧
    (collect c3NonGen).stats.majorCollections = 1 :=
  ⟨by have h := ((c3_collect_policy c3GenHot).1 (by decide)).1; simpa using h,
   by have h := ((c3_collect_policy c3GenHot).1 (by decide)).2.1.mpr (by decide)
      simpa using h,
   by have h := ((c3_collect_policy c3NonGen).2 (by decide)).2; simpa using h⟩

/-- C9: `MemoryBlock::allocate` succeeds (returning the old `current` and
advancing `current` by `size`) iff `current + size ≤ end`; on failure it
returns null with `current` unchanged; in particular a request of
`capacity + 1` bytes fails without mutating the block. -/
theorem c9_memoryBlock_allocate (b : MemoryBlock) (size : Nat)
    (hwf : b.start ≤ b.current) :
    (b.current + size ≤ b.stop →
      b.allocate size = (some b.current, { b with current := b.current + size })) ∧
    (b.stop < b.current + size → b.allocate size = (none, b)) ∧
    b.allocate (b.capacity + 1) = (none, b) := by
  refine ⟨fun h => ?_, fun h => ?_, ?_⟩
  · simp [MemoryBlock.allocate, MemoryBlock.canAllocate, h]
  · simp [MemoryBlock.allocate, MemoryBlock.canAllocate]
    omega
  · simp [MemoryBlock.allocate, MemoryBlock.canAllocate, MemoryBlock.capacity]
    omega

/-- Witness for `c9_memoryBlock_allocate` on an 8-byte region. -/
theorem c9_memoryBlock_allocate_witness :
    MemoryBlock.allocate ⟨0, 8, 0⟩ 4 = (some 0, ⟨0, 8, 4⟩) ∧
    MemoryBlock.allocate ⟨0, 8, 0⟩ 9 = (none, ⟨0, 8, 0⟩) :=
  ⟨(c9_memoryBlock_allocate ⟨0, 8, 0⟩ 4 (by decide)).1 (by decide),
   (c9_memoryBlock_allocate ⟨0, 8, 0⟩ 9 (by decide)).2.1 (by decide)⟩

end Kava

namespace Kava

/-- Concrete default-configuration (generational) collector state holding a
single rooted young object, id 0 (a 10-int array: 8-byte header + 4-byte
length + 40 bytes data, rounded to 48 + 8 = 56 bytes). -/
def c2Demo : GCState :=
  { objs := [⟨false, false, 0, 56⟩], allObjects := [0], roots := [some 0],
    rememberedSet := [], eden := ⟨0, 1024, 56⟩, oldGenBlock := ⟨1024, 2048, 1024⟩,
    tenureThreshold := 15, enableGenerational := true, stats := GCStats.zero }

/-- C2 counterexample: in the default generational configuration, after the
root is cleared, a second `collect()` does NOT remove object 0 from the
live-object index and `totalObjectsCollected` stays 0 — because `collect()`
only runs a minor collection (OldGen is empty), and `minorSweep` never
removes anything from `allObjects`. -/
theorem c2_counterexample :
    (0 ∈ (collect c2Demo).allObjects) ∧
    (0 ∈ (collect { collect c2Demo with roots := [none] }).allObjects) ∧
    (collect { collect c2Demo with roots := [none] }).stats.totalObjectsCollected = 0 := by
  decide

/-- C2 (amended): the claimed reachability behaviour holds when `collect()`
performs a full collection (generational mode disabled): a rooted object
survives in `allObjects`; once no root points at it, `collect()` removes it
from `allObjects` and increases `totalObjectsCollected` by at least 1.
Under the default generational mode, while OldGen stays at or below 75 %
utilization, `collect()` performs only a minor collection, which leaves
`allObjects` and `totalObjectsCollected` unchanged, so the object is not
removed even after its root is cleared. -/
theorem c2_collect_reachability (s : GCState) (A : Nat)
    (hA : A ∈ s.allObjects) (hlt : A < s.objs.length) :
    (s.enableGenerational = false →
      (some A ∈ s.roots → A ∈ (collect s).allObjects) ∧
      (some A ∉ s.roots →
        A ∉ (collect s).allObjects ∧
        s.stats.totalObjectsCollected + 1 ≤ (collect s).stats.totalObjectsCollected)) ∧
    (s.enableGenerational = true →
      4 * s.oldGenBlock.used ≤ 3 * s.oldGenBlock.capacity →
      (collect s).allObjects = s.allObjects ∧
      (collect s).stats.totalObjectsCollected = s.stats.totalObjectsCollected) := by
  constructor
  · intro hgen
    have hcol : collect s = collectFull s := by simp [collect, hgen]
    have hmarked := markPhase_marked s A hA hlt
    constructor
    · intro hroot
      rw [hcol]
      show A ∈ (sweepPhase (markPhase s)).allObjects
      rw [sweepPhase_mem, markPhase_allObjects, hmarked]
      exact ⟨hA, by simpa using hroot⟩
    · intro hroot
      have hm : isMarkedIn (markPhase s).objs A = false := by
        rw [hmarked]; simpa using hroot
      constructor
      · rw [hcol]
        show A ∉ (sweepPhase (markPhase s)).allObjects
        rw [sweepPhase_mem, markPhase_allObjects]
        rintro ⟨-, hmt⟩
        rw [hm] at hmt
        exact Bool.false_ne_true hmt
      · rw [hcol]
        show _ + 1 ≤ (collectFull s).stats.totalObjectsCollected
        have hge := sweepPhase_collected_ge (markPhase s) A
          (by rwa [markPhase_allObjects]) hm
        rw [markPhase_stats] at hge
        calc s.stats.totalObjectsCollected + 1
            ≤ (sweepPhase (markPhase s)).stats.totalObjectsCollected := hge
          _ = (collectFull s).stats.totalObjectsCollected := rfl
  · intro hgen hold
    have hcol : collect s = collectYoung s := by
      simp [collect, hgen, collectYoung_oldGenBlock]
      omega
    rw [hcol, collectYoung_allObjects, collectYoung_stats]
    exact ⟨rfl, rfl⟩

/-- Concrete non-generational collector state for the C2 witness: object 0
is rooted, object 1 is not. -/
def c2FullDemo : GCState :=
  { objs := [⟨false, false, 0, 56⟩, ⟨true, false, 0, 24⟩],
    allObjects := [0, 1], roots := [some 0], rememberedSet := [],
    eden := ⟨0, 1024, 80⟩, oldGenBlock := ⟨1024, 2048, 1024⟩,
    tenureThreshold := 15, enableGenerational := false, stats := GCStats.zero }

/-- Witness for `c2_collect_reachability`: the rooted object survives the
full collection, the unrooted one is removed and counted. -/
theorem c2_collect_reachability_witness :
    (0 ∈ (collect c2FullDemo).allObjects) ∧
    (1 ∉ (collect c2FullDemo).allObjects) ∧
    1 ≤ (collect c2FullDemo).stats.totalObjectsCollected :=
  ⟨(((c2_collect_reachability c2FullDemo 0 (by decide) (by decide)).1 rfl).1 (by decide)),
   (((c2_collect_reachability c2FullDemo 1 (by decide) (by decide)).1 rfl).2 (by decide)).1,
   by
     have h := (((c2_collect_reachability c2FullDemo 1 (by decide) (by decide)).1 rfl).2
       (by decide)).2
     simpa using h⟩

end Kava

namespace Kava

/-- Iterated minor collections (`collectYoung` applied `n` times). -/
def iterMinor : Nat → GCState → GCState
  | 0, s => s
  | n + 1, s => collectYoung (iterMinor n s)

/-- Generational collector state with tenure threshold `T` holding a single
freshly allocated rooted young object (id 0). -/
def c8Init (T : Nat) : GCState :=
  { objs := [⟨false, false, 0, 56⟩], allObjects := [0], roots := [some 0],
    rememberedSet := [], eden := ⟨0, 1024, 56⟩, oldGenBlock := ⟨1024, 2048, 1024⟩,
    tenureThreshold := T, enableGenerational := true, stats := GCStats.zero }

theorem c8_iter_closed (T : Nat) :
    ∀ n, n ≤ T → iterMinor n (c8Init T) =
      if n = 0 then c8Init T else
      { c8Init T with
          objs := [⟨true, decide (T ≤ n), n, 56⟩],
          eden := ⟨0, 1024, 0⟩,
          stats := { GCStats.zero with minorCollections := n, totalCollections := n } } := by
  intro n
  induction n with
  | zero => intro _; simp [iterMinor]
  | succ n ih =>
    intro hn
    have hn' : n ≤ T := Nat.le_of_succ_le hn
    rw [iterMinor, ih hn']
    by_cases h0 : n = 0
    · subst h0
      simp only [if_pos rfl, if_neg (Nat.one_ne_zero)]
      simp [collectYoung, minorMark, minorSweep, c8Init, isOldGenIn, modN,
        GCHeader.mark, GCHeader.promoteToOldGen, MemoryBlock.reset, GCStats.zero]
      by_cases hT1 : T ≤ 1 <;> simp [hT1]
    · have hlt : ¬ T ≤ n := by omega
      simp only [if_neg h0, if_neg (Nat.succ_ne_zero n)]
      simp [collectYoung, minorMark, minorSweep, c8Init, isOldGenIn, modN,
        GCHeader.mark, GCHeader.promoteToOldGen, MemoryBlock.reset, GCStats.zero, hlt]
      by_cases hT : T ≤ n + 1 <;> simp [hT]

/-- C8: an object kept alive by a registered root across `n ≤ T` consecutive
minor collections (tenure threshold `T ≥ 1`) has its age counter incremented
by every minor collection (age = `n` after `n` of them), and its OLD_GEN
flag is set exactly when its age has reached the threshold (`n = T`). -/
theorem c8_tenuring (T n : Nat) (hT : 1 ≤ T) (hn : n ≤ T) :
    ((iterMinor n (c8Init T)).header 0).map GCHeader.age = some n ∧
    (((iterMinor n (c8Init T)).header 0).map GCHeader.oldGen = some true ↔ n = T) := by
  rw [c8_iter_closed T n hn]
  by_cases h0 : n = 0
  · subst h0
    simp [c8Init, GCState.header]
    omega
  · rw [if_neg h0]
    constructor
    · simp [GCState.header, c8Init]
    · simp only [GCState.header, c8Init]
      constructor
      · intro h
        have : decide (T ≤ n) = true := by
          simpa using h
        have := of_decide_eq_true this
        omega
      · intro h
        subst h
        simp

/-- Witness for `c8_tenuring` at the default tenure threshold 15. -/
theorem c8_tenuring_witness :
    ((iterMinor 15 (c8Init 15)).header 0).map GCHeader.age = some 15 ∧
    ((iterMinor 15 (c8Init 15)).header 0).map GCHeader.oldGen = some true ∧
    ((iterMinor 14 (c8Init 15)).header 0).map GCHeader.oldGen ≠ some true :=
  ⟨(c8_tenuring 15 15 (by decide) (by decide)).1,
   (c8_tenuring 15 15 (by decide) (by decide)).2.mpr rfl,
   fun h => by
     have := (c8_tenuring 15 14 (by decide) (by decide)).2.mp h
     exact absurd this (by decide)⟩

end Kava

namespace Kava

/-! ## Interpreter values (`src/vm/vm.h`, `struct Value`)

The source `Value` is a type tag plus an 8-byte union.  Constructors
mirror `Value::Type`; the `Float`/`Double` payloads (IEEE bit patterns)
are not modelled — no claim depends on a floating-point value, and the
float-typed constructors only record the type tag.  An object-typed value
holding a null `GCObject*` is observationally identical to a Null value
for every modelled operation, so the model uses `VNull` for both. -/

inductive Value where
  | VNull
  | VInt (n : Int)
  | VLong (n : Int)
  | VFloat
  | VDouble
  | VObj (r : Nat)
  | VLambda (i : Int)
deriving Repr, DecidableEq

export Value (VNull VInt VLong VFloat VDouble VObj VLambda)

/-- `Value::asInt` reads the `i32` union member.  For `Long`, the
little-endian low 32 bits; for an object pointer the low pointer bits
(the abstract reference wrapped, an arbitrary but fixed choice — every
theorem below applies it identically on both sides of an equivalence or
never reaches it); for the unmodelled float payloads a fixed stand-in. -/
def Value.asInt : Value → Int
  | VNull => 0
  | VInt n => n
  | VLong n => toInt32 n
  | VFloat => 0
  | VDouble => 0
  | VObj r => toInt32 r
  | VLambda i => i

/-- `Value::toLong` (type-directed widening; default branch yields 0). -/
def Value.toLongV : Value → Int
  | VInt n => n
  | VLong n => n
  | _ => 0

/-- `Value::isLambda`. -/
def Value.isLambda : Value → Bool
  | VLambda _ => true
  | _ => false

/-- Reading the `obj` union member as a pointer: `some none` = null
pointer (Null-typed value), `some (some r)` = valid object, `none` = the
read is not modelled (the source would reinterpret a non-pointer payload,
which is unspecified). -/
def Value.asObjOpt : Value → Option (Option Nat)
  | VNull => some none
  | VObj r => some (some r)
  | _ => none

/-! ## Heap objects reachable from the script interpreter

Script-mode opcodes allocate only primitive arrays (`OP_NEWARRAY`) and
strings (`OP_PUSH_STRING`).  Array payloads are the stored `int32`
element slots; the source's per-element width distinction
(`allocateArray`) is immaterial to the modelled opcodes, which uniformly
read and write 32-bit slots (`arrayElement<int32_t>`). -/

inductive HeapObj where
  | intArr (elems : List Int)
  | strObj (s : String)
deriving Repr, DecidableEq

/-- `GCObject::arrayLength` (the first payload word). -/
def HeapObj.arrayLength : HeapObj → Int
  | .intArr l => l.length
  | .strObj s => s.length

/-- `LambdaClosure` (`codeStart`, `paramCount`, captures). -/
structure LambdaClosure where
  codeStart : Int
  paramCount : Int
  captures : List Value
deriving Repr, DecidableEq

/-- Event-loop state (`src/vm/async.h`): each promise is `(id, settled
value)` with `none` while pending; `resolve` on a settled promise is a
no-op.  Task/timer queues are not modelled — no script opcode enqueues
work, so `tick()` has no observable effect on the modelled state. -/
structure EventLoopState where
  promises : List (Int × Option Int)
  nextPromiseId : Int
deriving Repr, DecidableEq

def EventLoopState.createPromise (e : EventLoopState) : Int × EventLoopState :=
  (e.nextPromiseId,
   { promises := e.promises ++ [(e.nextPromiseId, none)],
     nextPromiseId := e.nextPromiseId + 1 })

def EventLoopState.getPromise (e : EventLoopState) (id : Int) : Option (Option Int) :=
  (e.promises.find? (fun p => p.1 = id)).map Prod.snd

def EventLoopState.resolvePromise (e : EventLoopState) (id : Int) (v : Int) : EventLoopState :=
  { e with promises := e.promises.map (fun p =>
      if p.1 = id ∧ p.2 = none then (p.1, some v) else p) }

/-! ## Script-mode interpreter state (`class VM`, script-mode members) -/

structure VMState where
  code : List Int
  pc : Int
  stack : List Value
  globals : List Value
  lambdaClosures : List LambdaClosure
  stringPool : List String
  heapObjs : List HeapObj
  eventLoop : EventLoopState
  running : Bool
deriving Repr, DecidableEq

/-- Fetch the bytecode word at (possibly out-of-range) position `k`;
a negative or past-the-end index is an out-of-bounds `std::vector` read
in the source (undefined), modelled as `none`. -/
def word? (code : List Int) (k : Int) : Option Int :=
  if 0 ≤ k then code[k.toNat]? else none

/-- Read global slot `idx` (`globals[index]`, unchecked in the source). -/
def glob? (g : List Value) (idx : Int) : Option Value :=
  if 0 ≤ idx then g[idx.toNat]? else none

/-- Write global slot `idx`. -/
def globSet? (g : List Value) (idx : Int) (v : Value) : Option (List Value) :=
  if 0 ≤ idx ∧ idx.toNat < g.length then some (g.set idx.toNat v) else none

/-- Unchecked `arrayElement<int32_t>` read, modelled only in bounds. -/
def arrGet? (l : List Int) (idx : Int) : Option Int :=
  if 0 ≤ idx then l[idx.toNat]? else none

/-- Unchecked `arrayElement<int32_t>` write, modelled only in bounds. -/
def arrSet? (l : List Int) (idx : Int) (v : Int) : Option (List Int) :=
  if 0 ≤ idx ∧ idx.toNat < l.length then some (l.set idx.toNat v) else none

def VMState.push (st : VMState) (v : Value) : VMState :=
  { st with stack := v :: st.stack }

/-- C-style arithmetic shift right of an `int32` (floor division). -/
def sar32 (a b : Int) : Int := Int.fdiv a (2 ^ b.toNat)

/-- C-style unsigned shift right of an `int32` reinterpreted as `uint32`. -/
def ushr32 (a b : Int) : Int := toInt32 ((a.emod (2 ^ 32)) / 2 ^ b.toNat)

end Kava

namespace Kava

/-- Run a continuation on the state after fetching one trailing operand
word (the common `scriptBytecode[scriptPC++]` operand pattern). -/
def withWord (st : VMState) (k : VMState → Int → Option VMState) : Option VMState :=
  match word? st.code st.pc with
  | some w => k { st with pc := st.pc + 1 } w
  | none => none

/-- Fetch two trailing operand words. -/
def withWord2 (st : VMState) (k : VMState → Int → Int → Option VMState) : Option VMState :=
  match word? st.code st.pc, word? st.code (st.pc + 1) with
  | some w1, some w2 => k { st with pc := st.pc + 2 } w1 w2
  | _, _ => none

/-- Binary int32 opcode: pop `b`, pop `a`, push `Value(f a b)` on the
`asInt` views (operand-stack underflow is an out-of-bounds read in the
source, modelled as `none`). -/
def binAri (st : VMState) (f : Int → Int → Int) : Option VMState :=
  match st.stack with
  | b :: a :: rest => some { st with stack := VInt (f a.asInt b.asInt) :: rest }
  | _ => none

/-- Binary int64 opcode on the `toLong` views. -/
def binLong (st : VMState) (f : Int → Int → Int) : Option VMState :=
  match st.stack with
  | b :: a :: rest => some { st with stack := VLong (f a.toLongV b.toLongV) :: rest }
  | _ => none

/-- Binary float/double opcode: pops both operands and pushes a value of
the given float kind (payload not modelled). -/
def binFD (st : VMState) (v : Value) : Option VMState :=
  match st.stack with
  | _ :: _ :: rest => some { st with stack := v :: rest }
  | _ => none

/-- Pop `n` values and discard them. -/
def popN (st : VMState) (n : Nat) : Option VMState :=
  if st.stack.length < n then none else some { st with stack := st.stack.drop n }

/-- `SUPER_LOAD_CMP_JZ` comparison selector (default case: false). -/
def superCmp (cmpOp v cmpVal : Int) : Bool :=
  if cmpOp = 0x58 then decide (v < cmpVal)
  else if cmpOp = 0x5A then decide (cmpVal < v)
  else if cmpOp = 0x5B then decide (v ≤ cmpVal)
  else if cmpOp = 0x59 then decide (cmpVal ≤ v)
  else false

set_option maxRecDepth 8192

mutual

/-- `VM::executeInstruction` (one fetch-decode-execute step; the build
without `USE_SDL`).  The leading guard is the source's
`scriptPC >= size` early return; the trailing `_` arm is the `default:`
case, which skips the unrecognized opcode.  Fuel only limits the nested
re-entrant execution performed by `OP_LAMBDA_CALL` / `OP_PIPE`. -/
def execInstr : Nat → VMState → Option VMState
  | 0, _ => none
  | fuel + 1, st =>
    if (st.code.length : Int) ≤ st.pc then some { st with running := false }
    else if st.pc < 0 then none
    else
      match st.code[st.pc.toNat]? with
      | none => none
      | some op =>
        let st1 := { st with pc := st.pc + 1 }
        if op = 0x00 then some st1                                    -- NOP
        else if op = 0x01 then some { st1 with running := false }          -- HALT
        else if op = 0x02 then some (st1.push VNull)                       -- PUSH_NULL
        else if op = 0x03 then some (st1.push (VInt 1))                    -- PUSH_TRUE
        else if op = 0x04 then some (st1.push (VInt 0))                    -- PUSH_FALSE
        else if op = 0x05 then withWord st1 fun st2 w => some (st2.push (VInt w))  -- PUSH_INT
        else if op = 0x06 then withWord2 st1 fun st2 lo hi =>              -- PUSH_LONG
          some (st2.push (VLong (hi * 2 ^ 32 + lo.emod (2 ^ 32))))
        else if op = 0x07 then withWord st1 fun st2 _ => some (st2.push VFloat)    -- PUSH_FLOAT
        else if op = 0x08 then withWord2 st1 fun st2 _ _ => some (st2.push VDouble) -- PUSH_DOUBLE
        else if op = 0x09 then withWord st1 fun st2 idx =>                 -- PUSH_STRING
          if 0 ≤ idx ∧ idx < (st2.stringPool.length : Int) then
            match st2.stringPool[idx.toNat]? with
            | some s => some { st2 with
                heapObjs := st2.heapObjs ++ [.strObj s]
                stack := VObj st2.heapObjs.length :: st2.stack }
            | none => none
          else some (st2.push VNull)
        else if op = 0x0B then some (st1.push (VInt (-1)))                 -- ICONST_M1
        else if op = 0x0C then some (st1.push (VInt 0))                    -- ICONST_0
        else if op = 0x0D then some (st1.push (VInt 1))
        else if op = 0x0E then some (st1.push (VInt 2))
        else if op = 0x0F then some (st1.push (VInt 3))
        else if op = 0x10 then some (st1.push (VInt 4))
        else if op = 0x11 then some (st1.push (VInt 5))                    -- ICONST_5
        else if op = 0x12 then popN st1 1                                  -- POP
        else if op = 0x14 then                                             -- DUP
          match st1.stack with
          | v :: rest => some { st1 with stack := v :: v :: rest }
          | [] => none
        else if op = 0x18 then                                             -- SWAP
          match st1.stack with
          | a :: b :: rest => some { st1 with stack := b :: a :: rest }
          | _ => none
        else if op = 0x20 then binAri st1 fun a b => toInt32 (a + b)       -- IADD
        else if op = 0x21 then binAri st1 fun a b => toInt32 (a - b)       -- ISUB
        else if op = 0x22 then binAri st1 fun a b => toInt32 (a * b)       -- IMUL
        else if op = 0x23 then binAri st1 fun a b =>                       -- IDIV
          if b ≠ 0 then toInt32 (a.tdiv b) else 0
        else if op = 0x24 then binAri st1 fun a b =>                       -- IMOD
          if b ≠ 0 then toInt32 (a.tmod b) else 0
        else if op = 0x25 then                                             -- INEG
          match st1.stack with
          | a :: rest => some { st1 with stack := VInt (toInt32 (-a.asInt)) :: rest }
          | [] => none
        else if op = 0x26 then withWord2 st1 fun st2 idx amount =>         -- IINC
          match glob? st2.globals idx with
          | some g =>
            match globSet? st2.globals idx (VInt (toInt32 (g.asInt + amount))) with
            | some gl => some { st2 with globals := gl }
            | none => none
          | none => none
        else if op = 0x27 then binLong st1 fun a b => toInt64 (a + b)      -- LADD
        else if op = 0x28 then binLong st1 fun a b => toInt64 (a - b)      -- LSUB
        else if op = 0x29 then binLong st1 fun a b => toInt64 (a * b)      -- LMUL
        else if op = 0x2A then binLong st1 fun a b =>                      -- LDIV
          if b ≠ 0 then toInt64 (a.tdiv b) else 0
        else if op = 0x2D then binFD st1 VFloat                            -- FADD
        else if op = 0x2E then binFD st1 VFloat                            -- FSUB
        else if op = 0x2F then binFD st1 VFloat                            -- FMUL
        else if op = 0x30 then binFD st1 VFloat                            -- FDIV
        else if op = 0x33 then binFD st1 VDouble                           -- DADD
        else if op = 0x34 then binFD st1 VDouble                           -- DSUB
        else if op = 0x35 then binFD st1 VDouble                           -- DMUL
        else if op = 0x36 then binFD st1 VDouble                           -- DDIV
        else if op = 0x56 then binAri st1 fun a b => if a = b then 1 else 0  -- IEQ
        else if op = 0x57 then binAri st1 fun a b => if a = b then 0 else 1  -- INE
        else if op = 0x58 then binAri st1 fun a b => if a < b then 1 else 0  -- ILT
        else if op = 0x59 then binAri st1 fun a b => if b ≤ a then 1 else 0  -- IGE
        else if op = 0x5A then binAri st1 fun a b => if b < a then 1 else 0  -- IGT
        else if op = 0x5B then binAri st1 fun a b => if a ≤ b then 1 else 0  -- ILE
        else if op = 0x40 then binAri st1 fun a b => Int.land a b          -- IAND
        else if op = 0x41 then binAri st1 fun a b => Int.lor a b           -- IOR
        else if op = 0x42 then binAri st1 fun a b => Int.xor a b           -- IXOR
        else if op = 0x43 then                                             -- ISHL
          match st1.stack with
          | b :: a :: rest =>
            if 0 ≤ b.asInt ∧ b.asInt < 32 then
              some { st1 with stack := VInt (toInt32 (a.asInt * 2 ^ b.asInt.toNat)) :: rest }
            else none
          | _ => none
        else if op = 0x44 then                                             -- ISHR
          match st1.stack with
          | b :: a :: rest =>
            if 0 ≤ b.asInt ∧ b.asInt < 32 then
              some { st1 with stack := VInt (sar32 a.asInt b.asInt) :: rest }
            else none
          | _ => none
        else if op = 0x45 then                                             -- IUSHR
          match st1.stack with
          | b :: a :: rest =>
            if 0 ≤ b.asInt ∧ b.asInt < 32 then
              some { st1 with stack := VInt (ushr32 a.asInt b.asInt) :: rest }
            else none
          | _ => none
        else if op = 0x19 then                                             -- NOT
          match st1.stack with
          | a :: rest =>
            some { st1 with stack := VInt (if a.asInt = 0 then 1 else 0) :: rest }
          | [] => none
        else if op = 0x60 then                                             -- I2L
          match st1.stack with
          | a :: rest => some { st1 with stack := VLong a.asInt :: rest }
          | [] => none
        else if op = 0x61 then                                             -- I2F
          match st1.stack with
          | _ :: rest => some { st1 with stack := VFloat :: rest }
          | [] => none
        else if op = 0x62 then                                             -- I2D
          match st1.stack with
          | _ :: rest => some { st1 with stack := VDouble :: rest }
          | [] => none
        else if op = 0x63 then                                             -- L2I
          match st1.stack with
          | a :: rest => some { st1 with stack := VInt (toInt32 a.toLongV) :: rest }
          | [] => none
        else if op = 0x66 then none   -- F2I: depends on the unmodelled float payload
        else if op = 0x69 then none   -- D2I: depends on the unmodelled double payload
        else if op = 0x68 then                                             -- F2D
          match st1.stack with
          | _ :: rest => some { st1 with stack := VDouble :: rest }
          | [] => none
        else if op = 0x6B then                                             -- D2F
          match st1.stack with
          | _ :: rest => some { st1 with stack := VFloat :: rest }
          | [] => none
        else if op = 0x70 then withWord st1 fun st2 idx =>                 -- ILOAD
          match glob? st2.globals idx with
          | some v => some (st2.push v)
          | none => none
        else if op = 0x71 then withWord st1 fun st2 idx =>                 -- LLOAD
          match glob? st2.globals idx with
          | some v => some (st2.push v)
          | none => none
        else if op = 0x72 then withWord st1 fun st2 idx =>                 -- FLOAD
          match glob? st2.globals idx with
          | some v => some (st2.push v)
          | none => none
        else if op = 0x73 then withWord st1 fun st2 idx =>                 -- DLOAD
          match glob? st2.globals idx with
          | some v => some (st2.push v)
          | none => none
        else if op = 0x74 then withWord st1 fun st2 idx =>                 -- ALOAD
          match glob? st2.globals idx with
          | some v => some (st2.push v)
          | none => none
        else if op = 0x80 then withWord st1 fun st2 idx =>                 -- ISTORE
          match st2.stack with
          | v :: rest =>
            match globSet? st2.globals idx v with
            | some g => some { st2 with stack := rest, globals := g }
            | none => none
          | [] => none
        else if op = 0x81 then withWord st1 fun st2 idx =>                 -- LSTORE
          match st2.stack with
          | v :: rest =>
            match globSet? st2.globals idx v with
            | some g => some { st2 with stack := rest, globals := g }
            | none => none
          | [] => none
        else if op = 0x82 then withWord st1 fun st2 idx =>                 -- FSTORE
          match st2.stack with
          | v :: rest =>
            match globSet? st2.globals idx v with
            | some g => some { st2 with stack := rest, globals := g }
            | none => none
          | [] => none
        else if op = 0x83 then withWord st1 fun st2 idx =>                 -- DSTORE
          match st2.stack with
          | v :: rest =>
            match globSet? st2.globals idx v with
            | some g => some { st2 with stack := rest, globals := g }
            | none => none
          | [] => none
        else if op = 0x84 then withWord st1 fun st2 idx =>                 -- ASTORE
          match st2.stack with
          | v :: rest =>
            match globSet? st2.globals idx v with
            | some g => some { st2 with stack := rest, globals := g }
            | none => none
          | [] => none
        else if op = 0x94 then withWord st1 fun st2 idx =>                 -- LOAD_GLOBAL
          match glob? st2.globals idx with
          | some v => some (st2.push v)
          | none => none
        else if op = 0x95 then withWord st1 fun st2 idx =>                 -- STORE_GLOBAL
          match st2.stack with
          | v :: rest =>
            match globSet? st2.globals idx v with
            | some g => some { st2 with stack := rest, globals := g }
            | none => none
          | [] => none
        else if op = 0xA0 then withWord st1 fun st2 _ty =>                 -- NEWARRAY
          match st2.stack with
          | lengthVal :: rest =>
            let len := lengthVal.asInt
            if len < 0 then some { st2 with stack := VNull :: rest }
            else some { st2 with
              stack := VObj st2.heapObjs.length :: rest
              heapObjs := st2.heapObjs ++ [.intArr (List.replicate len.toNat 0)] }
          | [] => none
        else if op = 0xA3 then                                             -- ARRAYLENGTH
          match st1.stack with
          | arrVal :: rest =>
            match arrVal.asObjOpt with
            | some (some r) =>
              match st1.heapObjs[r]? with
              | some o => some { st1 with stack := VInt o.arrayLength :: rest }
              | none => none
            | some none => some { st1 with stack := VInt 0 :: rest }
            | none => none
          | [] => none
        else if op = 0xA4 then                                             -- IALOAD
          match st1.stack with
          | idx :: arr :: rest =>
            match arr.asObjOpt with
            | some (some r) =>
              match st1.heapObjs[r]? with
              | some (.intArr l) =>
                match arrGet? l idx.asInt with
                | some v => some { st1 with stack := VInt v :: rest }
                | none => none
              | _ => none
            | some none => some { st1 with stack := VInt 0 :: rest }
            | none => none
          | _ => none
        else if op = 0xAC then                                             -- IASTORE
          match st1.stack with
          | v :: idx :: arr :: rest =>
            match arr.asObjOpt with
            | some (some r) =>
              match st1.heapObjs[r]? with
              | some (.intArr l) =>
                match arrSet? l idx.asInt v.asInt with
                | some l2 => some { st1 with
                    stack := rest
                    heapObjs := st1.heapObjs.set r (.intArr l2) }
                | none => none
              | _ => none
            | some none => some { st1 with stack := rest }
            | none => none
          | _ => none
        else if op = 0xC0 then                                             -- JMP
          match word? st1.code st1.pc with
          | some addr => some { st1 with pc := addr }
          | none => none
        else if op = 0xC1 then withWord st1 fun st2 addr =>                -- JZ
          match st2.stack with
          | v :: rest =>
            some { st2 with
                   stack := rest
                   pc := if v.asInt = 0 then addr else st2.pc }
          | [] => none
        else if op = 0xC2 then withWord st1 fun st2 addr =>                -- JNZ
          match st2.stack with
          | v :: rest =>
            some { st2 with
                   stack := rest
                   pc := if v.asInt = 0 then st2.pc else addr }
          | [] => none
        else if op = 0xD1 then withWord st1 fun st2 _ => some st2          -- CALL
        else if op = 0xD2 then withWord st1 fun st2 _ => some st2          -- INVOKE
        else if op = 0xD3 then withWord st1 fun st2 _ => some st2          -- INVOKESPEC
        else if op = 0xD6 then some st1                                    -- RET
        else if op = 0xD7 then some st1                                    -- IRET
        else if op = 0xDB then some st1                                    -- ARET
        else if op = 0xE0 then withWord st1 fun st2 _ => some (st2.push VNull)  -- NEW
        else if op = 0x90 then withWord st1 fun st2 _ =>                   -- GETFIELD
          match st2.stack with
          | _ :: rest => some { st2 with stack := VInt 0 :: rest }
          | [] => none
        else if op = 0x91 then withWord st1 fun st2 _ => popN st2 2        -- PUTFIELD
        else if op = 0xE1 then withWord st1 fun st2 _ =>                   -- INSTANCEOF
          match st2.stack with
          | _ :: rest => some { st2 with stack := VInt 0 :: rest }
          | [] => none
        else if op = 0xE2 then withWord st1 fun st2 _ => some st2          -- CHECKCAST
        else if op = 0xF4 then some { st1 with pc := st1.pc + 1 }          -- TRY_BEGIN
        else if op = 0xF5 then some st1                                    -- TRY_END
        else if op = 0xF6 then some st1                                    -- CATCH
        else if op = 0xF7 then some st1                                    -- FINALLY
        else if op = 0xE3 then popN st1 1                                  -- ATHROW
        else if op = 0xF0 then popN st1 1                                  -- MONITORENTER
        else if op = 0xF1 then popN st1 1                                  -- MONITOREXIT
        else if op = 0xF8 then popN st1 1                                  -- PRINT (output not modelled)
        else if op = 0x100 then withWord2 st1 fun st2 lambdaIdx paramCount =>  -- LAMBDA_NEW
          if lambdaIdx < 0 then none
          else
            let k := lambdaIdx.toNat
            let ls := if (st2.lambdaClosures.length : Int) ≤ lambdaIdx
              then st2.lambdaClosures ++
                List.replicate (k + 1 - st2.lambdaClosures.length) ⟨0, 0, []⟩
              else st2.lambdaClosures
            some { st2 with
                   lambdaClosures := ls.set k ⟨0, paramCount, []⟩
                   stack := VLambda lambdaIdx :: st2.stack }
        else if op = 0x101 then withWord st1 fun st2 argCount =>           -- LAMBDA_CALL
          if argCount < 0 then none
          else
            let n := argCount.toNat
            if st2.stack.length < n + 1 then none
            else
              let args := (st2.stack.take n).reverse
              match st2.stack.drop n with
              | VLambda li :: rest =>
                match executeLambda fuel li args { st2 with stack := rest } with
                | some (res, st4) => some (st4.push res)
                | none => none
              | _ :: rest => some { st2 with stack := VInt 0 :: rest }
              | [] => none
        else if op = 0x102 then withWord st1 fun st2 idx =>                -- CAPTURE_LOCAL
          match glob? st2.globals idx with
          | some v => some (st2.push v)
          | none => none
        else if op = 0x103 then withWord st1 fun st2 idx =>                -- CAPTURE_LOAD
          some (st2.push (VInt idx))
        else if op = 0x110 then some st1                                   -- STREAM_NEW
        else if op = 0x111 then popN st1 1                                 -- STREAM_FILTER
        else if op = 0x112 then popN st1 1                                 -- STREAM_MAP
        else if op = 0x113 then popN st1 1                                 -- STREAM_REDUCE
        else if op = 0x114 then popN st1 1                                 -- STREAM_FOREACH
        else if op = 0x11F then popN st1 1                                 -- STREAM_FLATMAP
        else if op = 0x116 then                                            -- STREAM_COUNT
          match st1.stack with
          | source :: rest =>
            match source.asObjOpt with
            | some (some r) =>
              match st1.heapObjs[r]? with
              | some o => some { st1 with stack := VInt o.arrayLength :: rest }
              | none => none
            | some none => some { st1 with stack := VInt 0 :: rest }
            | none => none
          | [] => none
        else if op = 0x117 then                                            -- STREAM_SUM
          match st1.stack with
          | source :: rest =>
            match source.asObjOpt with
            | some (some r) =>
              match st1.heapObjs[r]? with
              | some (.intArr l) =>
                some { st1 with stack := VLong (toInt64 l.sum) :: rest }
              | _ => none
            | some none => some { st1 with stack := VLong 0 :: rest }
            | none => none
          | [] => none
        else if op = 0x11D then                                            -- STREAM_MIN
          match st1.stack with
          | source :: rest =>
            match source.asObjOpt with
            | some (some r) =>
              match st1.heapObjs[r]? with
              | some (.intArr (x :: xs)) =>
                some { st1 with stack := VInt (xs.foldl min x) :: rest }
              | some (.intArr []) => some { st1 with stack := VInt 0 :: rest }
              | _ => none
            | some none => some { st1 with stack := VInt 0 :: rest }
            | none => none
          | [] => none
        else if op = 0x11E then                                            -- STREAM_MAX
          match st1.stack with
          | source :: rest =>
            match source.asObjOpt with
            | some (some r) =>
              match st1.heapObjs[r]? with
              | some (.intArr (x :: xs)) =>
                some { st1 with stack := VInt (xs.foldl max x) :: rest }
              | some (.intArr []) => some { st1 with stack := VInt 0 :: rest }
              | _ => none
            | some none => some { st1 with stack := VInt 0 :: rest }
            | none => none
          | [] => none
        else if op = 0x115 then some st1                                   -- STREAM_COLLECT
        else if op = 0x11C then some st1                                   -- STREAM_TOLIST
        else if op = 0x118 then some st1                                   -- STREAM_SORT
        else if op = 0x119 then some st1                                   -- STREAM_DISTINCT
        else if op = 0x11A then some st1                                   -- STREAM_LIMIT
        else if op = 0x11B then some st1                                   -- STREAM_SKIP
        else if op = 0x120 then some st1                                   -- STREAM_ANYMATCH
        else if op = 0x121 then some st1                                   -- STREAM_ALLMATCH
        else if op = 0x130 then                                            -- ASYNC_CALL
          let p := st1.eventLoop.createPromise
          some { st1 with eventLoop := p.2, stack := VInt p.1 :: st1.stack }
        else if op = 0x131 then                                            -- AWAIT
          match st1.stack with
          | pid :: rest =>
            match st1.eventLoop.getPromise pid.asInt with
            | some (some v) => some { st1 with stack := VInt (toInt32 v) :: rest }
            | some none => none   -- pending: the source spin-waits forever
            | none => some { st1 with stack := VInt 0 :: rest }
          | [] => none
        else if op = 0x132 then                                            -- PROMISE_NEW
          let p := st1.eventLoop.createPromise
          some { st1 with eventLoop := p.2, stack := VInt p.1 :: st1.stack }
        else if op = 0x133 then                                            -- PROMISE_RESOLVE
          match st1.stack with
          | val :: pid :: rest =>
            some { st1 with
                   stack := rest
                   eventLoop := st1.eventLoop.resolvePromise pid.asInt val.toLongV }
          | _ => none
        else if op = 0x134 then popN st1 2                                 -- PROMISE_REJECT
        else if op = 0x135 then some st1                                   -- YIELD
        else if op = 0x136 then some st1                                   -- EVENT_LOOP_TICK
        else if op = 0x140 then                                            -- PIPE
          match st1.stack with
          | VLambda li :: val :: rest =>
            match executeLambda fuel li [val] { st1 with stack := rest } with
            | some (res, st4) => some (st4.push res)
            | none => none
          | _ :: val :: rest => some { st1 with stack := val :: rest }
          | _ => none
        else if op = 0x206 then withWord2 st1 fun st2 i1 i2 =>             -- SUPER_LOAD_LOAD_ADD
          match glob? st2.globals i1, glob? st2.globals i2 with
          | some g1, some g2 =>
            some (st2.push (VInt (toInt32 (g1.asInt + g2.asInt))))
          | _, _ => none
        else if op = 0x207 then withWord2 st1 fun st2 i1 i2 =>             -- SUPER_LOAD_LOAD_MUL
          match glob? st2.globals i1, glob? st2.globals i2 with
          | some g1, some g2 =>
            some (st2.push (VInt (toInt32 (g1.asInt * g2.asInt))))
          | _, _ => none
        else if op = 0x205 then withWord2 st1 fun st2 val idx =>           -- SUPER_PUSH_STORE
          match globSet? st2.globals idx (VInt val) with
          | some g => some { st2 with globals := g }
          | none => none
        else if op = 0x203 then                                            -- SUPER_LOAD_CMP_JZ
          match word? st1.code st1.pc, word? st1.code (st1.pc + 1),
                word? st1.code (st1.pc + 2), word? st1.code (st1.pc + 3) with
          | some varIdx, some cmpVal, some cmpOp, some target =>
            match glob? st1.globals varIdx with
            | some g =>
              some { st1 with
                pc := if superCmp cmpOp g.asInt cmpVal then st1.pc + 4 else target }
            | none => none
          | _, _, _, _ => none
        else some st1                                         -- default: unknown opcode, skip
termination_by structural fuel => fuel

/-- `VM::executeLambda`: bounds-check the closure index, save the global
slots `[0, min(argCount + 10, |globals|))`, write the arguments into the
global slot table, run the body from `codeStart` until a `RET`/`IRET`
(via `lambdaLoop`), restore the saved `scriptPC`, pop the result (or
`Value(0)` from an empty stack) and write back the saved slots. -/
def executeLambda : Nat → Int → List Value → VMState → Option (Value × VMState)
  | 0, _, _, _ => none
  | fuel + 1, lambdaIdx, args, st =>
    if lambdaIdx < 0 ∨ (st.lambdaClosures.length : Int) ≤ lambdaIdx then
      some (VInt 0, st)
    else
      match st.lambdaClosures[lambdaIdx.toNat]? with
      | none => none
      | some closure =>
        let savedCount := min (args.length + 10) st.globals.length
        let saved := st.globals.take savedCount
        if st.globals.length < args.length then none
        else
          match lambdaLoop fuel { st with
              globals := args ++ st.globals.drop args.length
              pc := closure.codeStart } with
          | none => none
          | some st2 =>
            let st3 := { st2 with pc := st.pc }
            let pair : Value × VMState :=
              match st3.stack with
              | v :: rest => (v, { st3 with stack := rest })
              | [] => (VInt 0, st3)
            some (pair.1, { pair.2 with
              globals := saved ++ pair.2.globals.drop savedCount })
termination_by structural fuel => fuel

/-- The `while (running && scriptPC < size)` body loop of
`VM::executeLambda`: peek the opcode, stop (consuming it) on `RET`/`IRET`,
otherwise execute one instruction and continue. -/
def lambdaLoop : Nat → VMState → Option VMState
  | 0, _ => none
  | fuel + 1, st =>
    if st.running = false then some st
    else if (st.code.length : Int) ≤ st.pc then some st
    else if st.pc < 0 then none
    else
      match st.code[st.pc.toNat]? with
      | none => none
      | some op =>
        if op = 0xD6 ∨ op = 0xD7 then some { st with pc := st.pc + 1 }
        else
          match execInstr fuel st with
          | none => none
          | some st2 => lambdaLoop fuel st2
termination_by structural fuel => fuel

end

/-- The `while (running && scriptPC < size)` dispatch loop of
`VM::executeScriptMode` (JIT profiling counters are not modelled — they
do not influence `executeInstruction`). -/
def execLoop : Nat → VMState → Option VMState
  | 0, _ => none
  | fuel + 1, st =>
    if st.running = true ∧ st.pc < (st.code.length : Int) then
      match execInstr fuel st with
      | none => none
      | some st2 => execLoop fuel st2
    else some st

end Kava

namespace Kava

/-- The opcodes with a `case` label in `VM::executeInstruction`
(the build without `USE_SDL`). -/
def knownOpcodes : List Int :=
  [0x00, 0x01, 0x02, 0x03, 0x04, 0x05, 0x06, 0x07, 0x08, 0x09, 0x0B, 0x0C, 0x0D,
   0x0E, 0x0F, 0x10, 0x11, 0x12, 0x14, 0x18, 0x20, 0x21, 0x22, 0x23, 0x24, 0x25,
   0x26, 0x27, 0x28, 0x29, 0x2A, 0x2D, 0x2E, 0x2F, 0x30, 0x33, 0x34, 0x35, 0x36,
   0x56, 0x57, 0x58, 0x59, 0x5A, 0x5B, 0x40, 0x41, 0x42, 0x43, 0x44, 0x45, 0x19,
   0x60, 0x61, 0x62, 0x63, 0x66, 0x69, 0x68, 0x6B, 0x70, 0x71, 0x72, 0x73, 0x74,
   0x80, 0x81, 0x82, 0x83, 0x84, 0x94, 0x95, 0xA0, 0xA3, 0xA4, 0xAC, 0xC0, 0xC1,
   0xC2, 0xD1, 0xD2, 0xD3, 0xD6, 0xD7, 0xDB, 0xE0, 0x90, 0x91, 0xE1, 0xE2, 0xF4,
   0xF5, 0xF6, 0xF7, 0xE3, 0xF0, 0xF1, 0xF8, 0x100, 0x101, 0x102, 0x103, 0x110,
   0x111, 0x112, 0x113, 0x114, 0x11F, 0x116, 0x117, 0x11D, 0x11E, 0x115, 0x11C,
   0x118, 0x119, 0x11A, 0x11B, 0x120, 0x121, 0x130, 0x131, 0x132, 0x133, 0x134,
   0x135, 0x136, 0x140, 0x206, 0x207, 0x205, 0x203]

/-- A one-unknown-instruction program in the initial script state. -/
def c1Demo : VMState :=
  { code := [1000], pc := 0, stack := [], globals := [],
    lambdaClosures := [], stringPool := [], heapObjs := [],
    eventLoop := ⟨[], 1⟩, running := true }

/-- C1 counterexample: opcode 1000 is not a recognized opcode, yet after
executing it the VM is still running (`running = true`, the pc simply
skipped the word) — the `default:` case of the dispatch switch skips the
opcode instead of logging and halting. -/
theorem c1_counterexample :
    (1000 : Int) ∉ knownOpcodes ∧
    execInstr 1 c1Demo = some { c1Demo with pc := 1 } ∧
    (execInstr 1 c1Demo).map VMState.running = some true := by decide

end Kava

namespace Kava

/-- C1 (amended): an unrecognized opcode is NOT fatal — the dispatch
switch's `default:` case skips it: the pc advances past the opcode word
and nothing else changes, in particular the VM keeps running.  The
dispatch-level stops are `OP_HALT` (which sets `running := false`) and
entering `executeInstruction` with the pc at or past the end of the
bytecode. -/
theorem c1_unrecognized_opcode_skips (fuel : Nat) (st : VMState) (op : Int)
    (hpc : 0 ≤ st.pc) (hcode : st.code[st.pc.toNat]? = some op) :
    (op ∉ knownOpcodes → execInstr (fuel + 1) st = some { st with pc := st.pc + 1 }) ∧
    (op = 0x01 → execInstr (fuel + 1) st =
      some { st with pc := st.pc + 1, running := false }) ∧
    (∀ st2 : VMState, (st2.code.length : Int) ≤ st2.pc →
      execInstr (fuel + 1) st2 = some { st2 with running := false }) := by
  have hlt : st.pc.toNat < st.code.length := by
    rcases List.getElem?_eq_some.mp hcode with ⟨h, -⟩
    exact h
  have hpcn : (st.pc.toNat : Int) = st.pc := Int.toNat_of_nonneg hpc
  have hlen : ¬ ((st.code.length : Int) ≤ st.pc) := by omega
  have hneg : ¬ (st.pc < 0) := by omega
  refine ⟨fun hunk => ?_, fun h1 => ?_, fun st2 h2 => ?_⟩
  · simp only [knownOpcodes, List.mem_cons, List.not_mem_nil, or_false, not_or] at hunk
    simp [execInstr, hlen, hneg, hcode, hunk]
  · subst h1
    simp [execInstr, hlen, hneg, hcode]
  · simp [execInstr, h2]

/-- Witness for `c1_unrecognized_opcode_skips`: opcode 1000 at pc 0. -/
theorem c1_unrecognized_opcode_skips_witness :
    execInstr 1 c1Demo = some { c1Demo with pc := 1 } ∧
    execInstr 1 { c1Demo with code := [0x01] } =
      some { c1Demo with code := [0x01], pc := 1, running := false } ∧
    execInstr 1 { c1Demo with code := [] } =
      some { c1Demo with code := [], running := false } :=
  ⟨(c1_unrecognized_opcode_skips 0 c1Demo 1000 (by decide) (by decide)).1 (by decide),
   (c1_unrecognized_opcode_skips 0 { c1Demo with code := [0x01] } 0x01
      (by decide) (by decide)).2.1 rfl,
   (c1_unrecognized_opcode_skips 0 c1Demo 1000 (by decide) (by decide)).2.2
      { c1Demo with code := [] } (by decide)⟩

end Kava

namespace Kava

/-- Negated-dividend rule for the truncating remainder. -/
theorem neg_tmod (a b : Int) : (-a).tmod b = -(a.tmod b) := by
  rw [Int.tmod_def, Int.tmod_def, Int.neg_tdiv]
  ring

/-- `toInt32` is the identity on the int32 range. -/
theorem toInt32_eq_self (x : Int) (h1 : -2 ^ 31 ≤ x) (h2 : x < 2 ^ 31) :
    toInt32 x = x := by
  unfold toInt32
  have e1 : (2 : Int) ^ 31 = 2147483648 := by norm_num
  have e2 : (2 : Int) ^ 32 = 4294967296 := by norm_num
  rw [e1, e2] at *
  omega

/-- For a positive modulus the truncating remainder lies in `(-m, m)`. -/
theorem tmod_bounds (a m : Int) (hm : 0 < m) : -m < a.tmod m ∧ a.tmod m < m := by
  rcases le_or_lt 0 a with hx | hx
  · exact ⟨by have := Int.tmod_nonneg m hx; omega, Int.tmod_lt_of_pos a hm⟩
  · have h1 : 0 ≤ (-a).tmod m := Int.tmod_nonneg m (by omega)
    have h2 : (-a).tmod m < m := Int.tmod_lt_of_pos (-a) hm
    have h3 : a.tmod m = -((-a).tmod m) := by
      have h := neg_tmod (-a) m
      rw [neg_neg] at h
      omega
    omega

/-- For a nonzero int32 divisor the truncating remainder of any dividend
is strictly inside the int32 range. -/
theorem tmod_int32_range (a b : Int)
    (hb : -2 ^ 31 ≤ b ∧ b < 2 ^ 31) (hb0 : b ≠ 0) :
    -2 ^ 31 < a.tmod b ∧ a.tmod b < 2 ^ 31 := by
  rcases lt_trichotomy b 0 with hneg | hz | hpos
  · have hrw : a.tmod b = a.tmod (-b) := by
      have := Int.tmod_neg a b
      omega
    have hbd := tmod_bounds a (-b) (by omega)
    omega
  · exact absurd hz hb0
  · have hbd := tmod_bounds a b hpos
    omega

/-- For int32 operands (excluding `INT_MIN / -1`, undefined in C) the
truncating quotient lies in the int32 range. -/
theorem tdiv_int32_range (a b : Int)
    (ha : -2 ^ 31 ≤ a ∧ a < 2 ^ 31) (hb : -2 ^ 31 ≤ b ∧ b < 2 ^ 31)
    (hb0 : b ≠ 0) (hsp : ¬(a = -2 ^ 31 ∧ b = -1)) :
    -2 ^ 31 ≤ a.tdiv b ∧ a.tdiv b < 2 ^ 31 := by
  have habs : (a.tdiv b).natAbs = a.natAbs / b.natAbs := Int.natAbs_tdiv a b
  have hle : (a.tdiv b).natAbs ≤ a.natAbs := by
    rw [habs]
    exact Nat.div_le_self _ _
  by_cases htop : a.tdiv b = 2 ^ 31
  · exfalso
    have ht : (a.tdiv b).natAbs = 2 ^ 31 := by
      rw [htop]
      rfl
    have hba : b.natAbs = 1 := by
      by_contra hb1
      have hb2 : 2 ≤ b.natAbs := by omega
      have hcase : a.natAbs / b.natAbs < a.natAbs ∨ a.natAbs = 0 := by
        rcases Nat.eq_zero_or_pos a.natAbs with h | h
        · right; exact h
        · left; exact Nat.div_lt_self h hb2
      omega
    have hbv : b = 1 ∨ b = -1 := by omega
    rcases hbv with hb1 | hbm1
    · subst hb1
      rw [Int.tdiv_one] at htop
      omega
    · subst hbm1
      have hda : a.tdiv (-1) = -a := by
        simp [Int.tdiv_neg, Int.tdiv_one]
      rw [hda] at htop
      exact hsp ⟨by omega, rfl⟩
  · constructor
    · omega
    · omega

/-- Initial script state for the region `PUSH_INT a; PUSH_INT b; <opc>`. -/
def c4State (a b opc : Int) : VMState :=
  { code := [0x05, a, 0x05, b, opc], pc := 0, stack := [], globals := [],
    lambdaClosures := [], stringPool := [], heapObjs := [],
    eventLoop := ⟨[], 1⟩, running := true }

/-- C4: for int32 `a`, `b`, running `PUSH_INT a; PUSH_INT b; IDIV` pushes
the C-style truncating quotient when `b ≠ 0` and pushes 0 when `b = 0`
(no error is signalled); likewise `IMOD` pushes the C remainder when
`b ≠ 0` and 0 when `b = 0`.  For every pair except `a = -2^31, b = -1`
(whose quotient does not fit in int32 and is undefined behaviour in C)
the pushed values are exactly `Int.tdiv a b` / `Int.tmod a b`. -/
theorem c4_idiv_imod_by_zero (a b : Int)
    (ha : -2 ^ 31 ≤ a ∧ a < 2 ^ 31) (hb : -2 ^ 31 ≤ b ∧ b < 2 ^ 31) :
    (execLoop 10 (c4State a b 0x23)).map VMState.stack =
      some [VInt (if b = 0 then 0 else toInt32 (a.tdiv b))] ∧
    (execLoop 10 (c4State a b 0x24)).map VMState.stack =
      some [VInt (if b = 0 then 0 else toInt32 (a.tmod b))] ∧
    (b ≠ 0 → ¬(a = -2 ^ 31 ∧ b = -1) →
      toInt32 (a.tdiv b) = a.tdiv b ∧ toInt32 (a.tmod b) = a.tmod b) := by
  refine ⟨?_, ?_, fun hb0 hsp => ?_⟩
  · by_cases hb0 : b = 0
    · subst hb0
      simp [c4State, execLoop, execInstr, withWord, word?, binAri, Value.asInt, VMState.push]
    · simp [c4State, execLoop, execInstr, withWord, word?, binAri, Value.asInt,
        VMState.push, hb0]
  · by_cases hb0 : b = 0
    · subst hb0
      simp [c4State, execLoop, execInstr, withWord, word?, binAri, Value.asInt, VMState.push]
    · simp [c4State, execLoop, execInstr, withWord, word?, binAri, Value.asInt,
        VMState.push, hb0]
  · have hq := tdiv_int32_range a b ha hb hb0 hsp
    have hm := tmod_int32_range a b hb hb0
    exact ⟨toInt32_eq_self _ hq.1 hq.2, toInt32_eq_self _ (by omega) hm.2⟩

/-- Witness for `c4_idiv_imod_by_zero` at `a = -7`, `b = 2` and the
division-by-zero case `a = 7`, `b = 0`. -/
theorem c4_idiv_imod_by_zero_witness :
    (execLoop 10 (c4State (-7) 2 0x23)).map VMState.stack = some [VInt (-3)] ∧
    (execLoop 10 (c4State 7 0 0x23)).map VMState.stack = some [VInt 0] ∧
    (execLoop 10 (c4State (-7) 2 0x24)).map VMState.stack = some [VInt (-1)] :=
  ⟨by
    have h := (c4_idiv_imod_by_zero (-7) 2 (by norm_num) (by norm_num)).1
    simpa using h,
   by
    have h := (c4_idiv_imod_by_zero 7 0 (by norm_num) (by norm_num)).1
    simpa using h,
   by
    have h := (c4_idiv_imod_by_zero (-7) 2 (by norm_num) (by norm_num)).2.1
    simpa using h⟩


end Kava

namespace Kava

/-- C10: a null array reference does not fault or halt the interpreter:
`ARRAYLENGTH` and `IALOAD` each push `Int 0` and execution continues
(pc advances, `running` and all other state unchanged); `IASTORE` with a
null array reference pops its three operands and changes nothing else. -/
theorem c10_null_array_ops (fuel : Nat) (st : VMState) (rest : List Value)
    (i v : Value) (hpc : 0 ≤ st.pc) :
    (st.code[st.pc.toNat]? = some 0xA3 → st.stack = VNull :: rest →
      execInstr (fuel + 1) st =
        some { st with pc := st.pc + 1, stack := VInt 0 :: rest }) ∧
    (st.code[st.pc.toNat]? = some 0xA4 → st.stack = i :: VNull :: rest →
      execInstr (fuel + 1) st =
        some { st with pc := st.pc + 1, stack := VInt 0 :: rest }) ∧
    (st.code[st.pc.toNat]? = some 0xAC → st.stack = v :: i :: VNull :: rest →
      execInstr (fuel + 1) st =
        some { st with pc := st.pc + 1, stack := rest }) := by
  refine ⟨fun hcode hstack => ?_, fun hcode hstack => ?_, fun hcode hstack => ?_⟩ <;>
  · have hlt : st.pc.toNat < st.code.length := by
      rcases List.getElem?_eq_some.mp hcode with ⟨h, -⟩
      exact h
    have hpcn : (st.pc.toNat : Int) = st.pc := Int.toNat_of_nonneg hpc
    have hlen : ¬ ((st.code.length : Int) ≤ st.pc) := by omega
    have hneg : ¬ (st.pc < 0) := by omega
    simp [execInstr, hlen, hneg, hcode, hstack, Value.asObjOpt]

/-- Concrete states for the `c10_null_array_ops` witness. -/
def c10St (opc : Int) (stk : List Value) : VMState :=
  { code := [opc], pc := 0, stack := stk, globals := [],
    lambdaClosures := [], stringPool := [], heapObjs := [],
    eventLoop := ⟨[], 1⟩, running := true }

/-- Witness for `c10_null_array_ops` on concrete one-instruction states. -/
theorem c10_null_array_ops_witness :
    execInstr 1 (c10St 0xA3 [VNull]) =
      some { c10St 0xA3 [VNull] with pc := 1, stack := [VInt 0] } ∧
    execInstr 1 (c10St 0xA4 [VInt 3, VNull]) =
      some { c10St 0xA4 [VInt 3, VNull] with pc := 1, stack := [VInt 0] } ∧
    execInstr 1 (c10St 0xAC [VInt 9, VInt 3, VNull]) =
      some { c10St 0xAC [VInt 9, VInt 3, VNull] with pc := 1, stack := [] } :=
  ⟨(c10_null_array_ops 0 (c10St 0xA3 [VNull]) [] (VInt 0) (VInt 0)
      (by decide)).1 (by decide) rfl,
   (c10_null_array_ops 0 (c10St 0xA4 [VInt 3, VNull]) [] (VInt 3) (VInt 0)
      (by decide)).2.1 (by decide) rfl,
   (c10_null_array_ops 0 (c10St 0xAC [VInt 9, VInt 3, VNull]) [] (VInt 3) (VInt 9)
      (by decide)).2.2 (by decide) rfl⟩

end Kava

namespace Kava

/-- Script state at the start of the region `LOAD_GLOBAL a; LOAD_GLOBAL b;
IADD` over globals `gs` and initial operand stack `stk`. -/
def c6Orig (a b : Int) (gs stk : List Value) : VMState :=
  { code := [0x94, a, 0x94, b, 0x20], pc := 0, stack := stk, globals := gs,
    lambdaClosures := [], stringPool := [], heapObjs := [],
    eventLoop := ⟨[], 1⟩, running := true }

/-- The fused replacement region `SUPER_LOAD_LOAD_ADD a b` from the same
initial state. -/
def c6Fused (a b : Int) (gs stk : List Value) : VMState :=
  { code := [0x206, a, b], pc := 0, stack := stk, globals := gs,
    lambdaClosures := [], stringPool := [], heapObjs := [],
    eventLoop := ⟨[], 1⟩, running := true }

/-- C6: for any global slot indices `a`, `b` (in range of the slot table)
and any initial slot values, executing `LOAD_GLOBAL a; LOAD_GLOBAL b;
IADD` and executing `SUPER_LOAD_LOAD_ADD a b` from the same initial state
produce identical resulting operand stacks (and identical, unchanged,
globals): both leave `Int(asInt gs[a] + asInt gs[b])` pushed on the
initial stack. -/
theorem c6_super_load_load_add (a b : Int) (gs stk : List Value) (ga gb : Value)
    (hga : glob? gs a = some ga) (hgb : glob? gs b = some gb) :
    (execLoop 10 (c6Orig a b gs stk)).map VMState.stack =
      some (VInt (toInt32 (ga.asInt + gb.asInt)) :: stk) ∧
    (execLoop 10 (c6Fused a b gs stk)).map VMState.stack =
      some (VInt (toInt32 (ga.asInt + gb.asInt)) :: stk) ∧
    (execLoop 10 (c6Orig a b gs stk)).map VMState.globals = some gs ∧
    (execLoop 10 (c6Fused a b gs stk)).map VMState.globals = some gs := by
  refine ⟨?_, ?_, ?_, ?_⟩ <;>
    simp [c6Orig, c6Fused, execLoop, execInstr, withWord, withWord2, word?,
      binAri, Value.asInt, VMState.push, hga, hgb]

/-- Witness for `c6_super_load_load_add` with `gs = [Int 30, Int 12]`. -/
theorem c6_super_load_load_add_witness :
    (execLoop 10 (c6Orig 0 1 [VInt 30, VInt 12] [])).map VMState.stack =
      some [VInt 42] ∧
    (execLoop 10 (c6Fused 0 1 [VInt 30, VInt 12] [])).map VMState.stack =
      some [VInt 42] :=
  ⟨by
    have h := (c6_super_load_load_add 0 1 [VInt 30, VInt 12] [] (VInt 30) (VInt 12)
      (by decide) (by decide)).1
    simpa [Value.asInt] using h,
   by
    have h := (c6_super_load_load_add 0 1 [VInt 30, VInt 12] [] (VInt 30) (VInt 12)
      (by decide) (by decide)).2.1
    simpa [Value.asInt] using h⟩

end Kava

namespace Kava

/-- VM state about to execute `LAMBDA_CALL 0` (pc 12).  The program's
lambda body (`PUSH_INT 7; STORE_GLOBAL 20; IRET`) sits at pc 0 (every
closure built by `OP_LAMBDA_NEW` has `codeStart = 0`), global slot 20
holds the caller's value `Int 42`, and the closure takes 0 arguments. -/
def c7CallState : VMState :=
  { code := [0x05, 7, 0x95, 20, 0xD7, 0x05, 42, 0x95, 20, 0x100, 0, 0, 0x101, 0, 0x01],
    pc := 12, stack := [VLambda 0],
    globals := (List.replicate 24 VNull).set 20 (VInt 42),
    lambdaClosures := [⟨0, 0, []⟩], stringPool := [], heapObjs := [],
    eventLoop := ⟨[], 1⟩, running := true }

/-- C7 counterexample: before the `LAMBDA_CALL` global slot 20 holds
`Int 42`; the lambda body overwrites it with `Int 7`; after the call
returns (pc restored to 14, past the call) slot 20 still holds `Int 7`,
not the caller's 42 — `executeLambda` saves and restores only slots
`[0, min(argCount + 10, 4096))`, and 20 ≥ 0 + 10. -/
theorem c7_counterexample :
    c7CallState.globals[20]? = some (VInt 42) ∧
    (execInstr 20 c7CallState).map (fun s => s.globals[20]?) = some (some (VInt 7)) ∧
    (execInstr 20 c7CallState).map VMState.pc = some 14 := by decide

/-- C7 (amended): after `executeLambda` returns, the caller's program
counter is restored, and every global slot with index below
`min(argCount + 10, |globals|)` is restored to its pre-call value; slots
above that prefix keep whatever the lambda wrote (the save/restore covers
only that prefix). -/
theorem c7_executeLambda_restores (fuel : Nat) (lambdaIdx : Int)
    (args : List Value) (st : VMState) (res : Value) (stOut : VMState)
    (h : executeLambda fuel lambdaIdx args st = some (res, stOut)) :
    stOut.pc = st.pc ∧
    ∀ j < min (args.length + 10) st.globals.length,
      stOut.globals[j]? = st.globals[j]? := by
  cases fuel with
  | zero => simp [executeLambda] at h
  | succ f =>
    simp only [executeLambda] at h
    split at h
    · rcases Option.some.inj h with h2
      cases h2
      exact ⟨rfl, fun j hj => rfl⟩
    · split at h
      · exact absurd h (by simp)
      · split at h
        · exact absurd h (by simp)
        · split at h
          · exact absurd h (by simp)
          · rename_i st2 heq
            have hread : ∀ j, j < min (args.length + 10) st.globals.length →
                (List.take (min (args.length + 10) st.globals.length) st.globals ++
                  st2.globals.drop (min (args.length + 10) st.globals.length))[j]? =
                st.globals[j]? := by
              intro j hj
              rw [List.getElem?_append, List.getElem?_take]
              simp only [List.length_take]
              have hjt : j < min (min (args.length + 10) st.globals.length)
                  st.globals.length := by omega
              rw [if_pos hjt, if_pos hj]
            cases hs : st2.stack with
            | nil =>
              simp only [hs] at h
              rcases Option.some.inj h with h2
              cases h2
              exact ⟨rfl, hread⟩
            | cons v rest =>
              simp only [hs] at h
              rcases Option.some.inj h with h2
              cases h2
              exact ⟨rfl, hread⟩

/-- Tiny lambda state for the `c7_executeLambda_restores` witness: the
body is a single `RET`, two global slots, caller pc 99. -/
def c7W : VMState :=
  { code := [0xD6], pc := 99, stack := [VInt 5], globals := [VInt 1, VInt 2],
    lambdaClosures := [⟨0, 0, []⟩], stringPool := [], heapObjs := [],
    eventLoop := ⟨[], 1⟩, running := true }

/-- Witness for `c7_executeLambda_restores` at a concrete call. -/
theorem c7_executeLambda_restores_witness :
    ({ c7W with stack := [] } : VMState).pc = c7W.pc ∧
    ({ c7W with stack := [] } : VMState).globals[0]? = c7W.globals[0]? := by
  have h : executeLambda 10 0 [] c7W = some (VInt 5, { c7W with stack := [] }) := by
    decide
  exact ⟨(c7_executeLambda_restores 10 0 [] c7W (VInt 5) _ h).1,
         (c7_executeLambda_restores 10 0 [] c7W (VInt 5) _ h).2 0 (by decide)⟩

end Kava

namespace Kava

/-- The opcode group whose single trailing operand word `optimizeO1`
copies verbatim (the long `op == OP_PUSH_INT || ...` condition). -/
def hasOneOperand (op : Int) : Bool :=
  op = 0x05 ∨ op = 0x09 ∨ op = 0x0A ∨ op = 0xC0 ∨ op = 0xC1 ∨ op = 0xC2 ∨
  op = 0x70 ∨ op = 0x80 ∨ op = 0x74 ∨ op = 0x84 ∨ op = 0x94 ∨ op = 0x95 ∨
  op = 0x90 ∨ op = 0x91 ∨ op = 0xD1 ∨ op = 0xD2 ∨ op = 0xD3 ∨ op = 0xE0 ∨
  op = 0xA0 ∨ op = 0xE2 ∨ op = 0xE1 ∨ op = 0x26

/-- The constant-folding arithmetic of `optimizeO1`
(`switch (arithOp)`; `none` = `folded = false`, in particular for a zero
divisor of `IDIV`/`IMOD`). -/
def foldArith (arithOp v1 v2 : Int) : Option Int :=
  if arithOp = 0x20 then some (toInt32 (v1 + v2))
  else if arithOp = 0x21 then some (toInt32 (v1 - v2))
  else if arithOp = 0x22 then some (toInt32 (v1 * v2))
  else if arithOp = 0x23 then (if v2 ≠ 0 then some (toInt32 (v1.tdiv v2)) else none)
  else if arithOp = 0x24 then (if v2 ≠ 0 then some (toInt32 (v1.tmod v2)) else none)
  else none

/-- Loop body of `JITCompiler::optimizeO1` over the remaining region
suffix, with the emitted output accumulated in reverse.  List-shape
patterns mirror the source's `i + k < code.size()` lookahead guards:
constant folding (`PUSH_INT a, PUSH_INT b, <ARITH>` collapsed to
`ICONST_n` when the folded value is in `[-1, 5]`, else `PUSH_INT`),
`NOP` removal, `ICONST/POP` pair elimination, and verbatim copy with
correct operand-word skipping otherwise. -/
def o1Go (acc : List Int) : List Int → List Int
  | [] => acc.reverse
  | op :: rest =>
    if op = 0x05 then
      match rest with
      | v1 :: rest2 =>
        match _hrest2 : rest2 with
        | nextOp :: r :: rest3 =>
          if nextOp = 0x05 then
            match _hrest3 : rest3 with
            | aop :: rest4 =>
              match foldArith aop v1 r with
              | some fv =>
                o1Go (if -1 ≤ fv ∧ fv ≤ 5 then (0x0C + fv) :: acc
                      else fv :: 0x05 :: acc) rest4
              | none => o1Go (v1 :: 0x05 :: acc) rest2
            | [] => o1Go (v1 :: 0x05 :: acc) rest2
          else o1Go (v1 :: 0x05 :: acc) rest2
        | [_nextOp] => o1Go (v1 :: 0x05 :: acc) rest2
        | [] => o1Go (v1 :: 0x05 :: acc) []
      | [] => o1Go (0x05 :: acc) []
    else if op = 0x00 then o1Go acc rest
    else if op = 0x12 then
      match acc with
      | prev :: acc2 =>
        if 0x0B ≤ prev ∧ prev ≤ 0x11 then o1Go acc2 rest
        else o1Go (0x12 :: acc) rest
      | [] => o1Go (0x12 :: acc) rest
    else if hasOneOperand op then
      match rest with
      | w :: rest2 => o1Go (w :: op :: acc) rest2
      | [] => o1Go (op :: acc) []
    else if op = 0x06 ∨ op = 0x08 then
      match rest with
      | w1 :: w2 :: rest2 => o1Go (w2 :: w1 :: op :: acc) rest2
      | other => o1Go (op :: acc) other
    else o1Go (op :: acc) rest
termination_by l => l.length
decreasing_by all_goals (subst_vars; simp) <;> omega

/-- `JITCompiler::optimizeO1`. -/
def optimizeO1 (code : List Int) : List Int := o1Go [] code

end Kava

namespace Kava

/-- Script state executing `code` over globals `gs` and initial stack `stk`. -/
def c5State (code : List Int) (gs stk : List Value) : VMState :=
  { code := code, pc := 0, stack := stk, globals := gs,
    lambdaClosures := [], stringPool := [], heapObjs := [],
    eventLoop := ⟨[], 1⟩, running := true }

/-- C5: `optimizeO1` compiles the region `[PUSH_INT 2, PUSH_INT 3, IADD]`
to the single-instruction stream `[ICONST_5]`; executing either stream
from the same initial state pushes the single value `Int 5` onto the
initial operand stack (same top of stack, same net depth change +1); and
constant folding is skipped for `IDIV`/`IMOD` when the constant divisor
is zero (the region is emitted verbatim). -/
theorem c5_o1_constant_folding :
    optimizeO1 [0x05, 2, 0x05, 3, 0x20] = [0x11] ∧
    (∀ gs stk : List Value,
      (execLoop 10 (c5State [0x05, 2, 0x05, 3, 0x20] gs stk)).map VMState.stack =
        some (VInt 5 :: stk) ∧
      (execLoop 10 (c5State [0x11] gs stk)).map VMState.stack =
        some (VInt 5 :: stk)) ∧
    (∀ a : Int,
      optimizeO1 [0x05, a, 0x05, 0, 0x23] = [0x05, a, 0x05, 0, 0x23] ∧
      optimizeO1 [0x05, a, 0x05, 0, 0x24] = [0x05, a, 0x05, 0, 0x24]) := by
  refine ⟨?_, fun gs stk => ⟨?_, ?_⟩, fun a => ⟨?_, ?_⟩⟩
  · norm_num [optimizeO1, o1Go, foldArith, toInt32]
  · simp [c5State, execLoop, execInstr, withWord, word?, binAri, Value.asInt, VMState.push]
    norm_num [toInt32]
  · simp [c5State, execLoop, execInstr, VMState.push]
  · norm_num [optimizeO1, o1Go, foldArith, hasOneOperand]
  · norm_num [optimizeO1, o1Go, foldArith, hasOneOperand]

end Kava
